import Mathlib

/-!
Shallow embedding of the two-player reaction-time game sketch
(`src/reactionGame.ino`) together with proofs about its round/game
state machine and its debounce logic.

Modelling conventions:
* pin levels HIGH/LOW are `true`/`false`;
* `millis`-based busy waits are abstracted into finite poll traces:
  a poll records the pair of debounced button values the loop body reads;
* the random hold durations only determine how many polls a hold lasts,
  so a countdown hold is a list of polls;
* LCD/serial output is not modelled except where a claim is about the
  text chosen (the final-result selection in `endGame`).
-/

namespace ReactionGame

/-- Number of LEDs, `numLeds = 3` (source line 11). -/
def numLeds : Nat := 3

/-- Maximum number of rounds, `maxRounds = 5` (source line 17). -/
def maxRounds : Nat := 5

/-- Debounce settle time in ms, `debounceDelay = 50` (source line 21). -/
def debounceDelay : Nat := 50

/-- Serial print rate limit in ms, `serialPrintInterval = 100` (source line 29). -/
def serialPrintInterval : Nat := 100

/-- Duration the per-round winner message is held, `delay(2000)` (source lines 158, 169, 212). -/
def roundHoldDelay : Nat := 2000

/-- Duration the final result is held in `endGame`, `delay(10000)` (source line 244). -/
def endHoldDelay : Nat := 10000

/-- One debounced button channel: the pair of globals
`lastButtonXState` and `buttonXPressed` (source lines 22-25). -/
structure ButtonChannel where
  lastState : Bool
  pressedFlag : Bool
deriving DecidableEq, Repr

/-- The function `debounceButton(pin, lastState, pressedFlag)` (source lines 85-104).
`read1` is the first `digitalRead`, `read2` the re-read after the settle
delay (only consulted when `read1` differs from the stable state).
Returns the value the caller sees (the sticky `pressedFlag`) and the
updated channel. -/
def debounceButton (read1 read2 : Bool) (ch : ButtonChannel) : Bool × ButtonChannel :=
  if read1 ≠ ch.lastState then
    if read2 ≠ ch.lastState then
      let pressed := if read2 then true else ch.pressedFlag
      (pressed, ⟨read2, pressed⟩)
    else
      (ch.pressedFlag, ch)
  else
    (ch.pressedFlag, ch)

/-- Game-level mutable globals (source lines 14-25): scores, round counter,
active flag, and the two button channels. -/
structure GameState where
  player1Score : Nat
  player2Score : Nat
  roundCount : Nat
  gameActive : Bool
  button1 : ButtonChannel
  button2 : ButtonChannel
deriving DecidableEq, Repr

/-- The four ways a round invocation can settle (spec section 3 RoundOutcome;
source lines 153-174 and 196-209). -/
inductive RoundOutcome where
  | player1EarlyPress
  | player2EarlyPress
  | player1Reacted
  | player2Reacted
deriving DecidableEq, Repr

/-- Score update performed for an outcome: an early press awards the
opponent (source lines 154, 165), a reaction awards the presser
(source lines 197, 204). -/
def scoreOutcome (o : RoundOutcome) (s : GameState) : GameState :=
  match o with
  | .player1EarlyPress => { s with player2Score := s.player2Score + 1 }
  | .player2EarlyPress => { s with player1Score := s.player1Score + 1 }
  | .player1Reacted => { s with player1Score := s.player1Score + 1 }
  | .player2Reacted => { s with player2Score := s.player2Score + 1 }

/-- Clearing `button1Pressed` and `button2Pressed` before re-entering
`playRound` (source lines 159-160, 170-171, 213-214). The stable states
are not touched here. -/
def clearLatches (s : GameState) : GameState :=
  { s with button1 := { s.button1 with pressedFlag := false },
           button2 := { s.button2 with pressedFlag := false } }

/-- Full reset of the four button globals to `false`/LOW
(source lines 73-76, 111-114, 250-253). -/
def resetButtons (s : GameState) : GameState :=
  { s with button1 := ⟨false, false⟩, button2 := ⟨false, false⟩ }

/-- Final result selected by the nested conditional in `endGame`
(source line 243). -/
inductive FinalResult where
  | player1Wins
  | player2Wins
  | tie
deriving DecidableEq, Repr

/-- The selection `player1Score > player2Score ? "Player 1 wins!" :
player2Score > player1Score ? "Player 2 wins!" : "It's a tie!"`
(source line 243). -/
def finalResult (s : GameState) : FinalResult :=
  if s.player1Score > s.player2Score then .player1Wins
  else if s.player2Score > s.player1Score then .player2Wins
  else .tie

/-- The function `endGame()` (source lines 240-255): after holding the
final result it sets `gameActive = false` and resets the button globals.
Scores and `roundCount` are not reset here. -/
def endGame (s : GameState) : GameState :=
  resetButtons { s with gameActive := false }

/-- Net state change of one `playRound` invocation that settles with
outcome `o`: `roundCount++` at entry (source line 124), the score update
for the outcome, then both latches cleared before the recursive call
(source lines 159-160, 170-171, 213-214). -/
def roundStep (o : RoundOutcome) (s : GameState) : GameState :=
  clearLatches (scoreOutcome o { s with roundCount := s.roundCount + 1 })

/-- The recursive function `playRound()` (source lines 118-216), driven by
the trace of outcomes its successive invocations settle with. When
`roundCount >= maxRounds` it calls `endGame` and returns (source lines
119-122); otherwise it counts a round, settles it with the next outcome
of the trace and re-enters itself. An exhausted trace models a match
whose current round never settles (the reaction loop polls forever), so
the state reached so far is returned. -/
def playRound (os : List RoundOutcome) (s : GameState) : GameState :=
  if maxRounds ≤ s.roundCount then endGame s
  else
    match os with
    | [] => s
    | o :: rest => playRound rest (roundStep o s)

/-- The function `startNewGame()` (source lines 106-116): zero both scores
and `roundCount`, reset the button globals, then call `playRound`. -/
def startNewGame (os : List RoundOutcome) (s : GameState) : GameState :=
  playRound os (resetButtons { s with player1Score := 0, player2Score := 0, roundCount := 0 })

/-- Globals as left by `setup()` (source lines 14-25, 31-51). -/
def initState : GameState :=
  { player1Score := 0, player2Score := 0, roundCount := 0, gameActive := false,
    button1 := ⟨false, false⟩, button2 := ⟨false, false⟩ }

/-- State right after the start transition in `loop` set `gameActive = true`
and `startNewGame` performed its resets (source lines 70, 107-114). -/
def activeInit : GameState :=
  { player1Score := 0, player2Score := 0, roundCount := 0, gameActive := true,
    button1 := ⟨false, false⟩, button2 := ⟨false, false⟩ }

/-- Round numbers announced by the successive `playRound` invocations: each
invocation that counts a round displays `"Round " + roundCount` right
after the increment (source lines 124-127). -/
def entryCounts (os : List RoundOutcome) (s : GameState) : List Nat :=
  if maxRounds ≤ s.roundCount then []
  else
    match os with
    | [] => []
    | o :: rest => (s.roundCount + 1) :: entryCounts rest (roundStep o s)

/-- States after each counted round of a match (the state each recursive
re-entry of `playRound` starts from). -/
def stateTrace (os : List RoundOutcome) (s : GameState) : List GameState :=
  if maxRounds ≤ s.roundCount then []
  else
    match os with
    | [] => []
    | o :: rest => roundStep o s :: stateTrace rest (roundStep o s)

/-- Number of nested `playRound` invocations a trace produces, the final
`roundCount >= maxRounds` invocation included. -/
def playRoundDepth (os : List RoundOutcome) (s : GameState) : Nat :=
  if maxRounds ≤ s.roundCount then 1
  else
    match os with
    | [] => 1
    | o :: rest => 1 + playRoundDepth rest (roundStep o s)

/-- One countdown hold (source lines 135-175): the body of the while loop
polls both channels and checks Player 1's latch first, then Player 2's
(source lines 153, 164); `none` means the hold ran out with no latch
fired, after which the LED is switched off (source line 176). Each poll
is the pair of values `debounceButton` returned for the two channels. -/
def scanHold : List (Bool × Bool) → Option RoundOutcome
  | [] => none
  | (b1, b2) :: rest =>
    if b1 then some .player1EarlyPress
    else if b2 then some .player2EarlyPress
    else scanHold rest

/-- The countdown `for` loop over the LEDs (source lines 135-178): runs the
holds in order, stops at the first early press. Returns how many LEDs
were switched off and the early outcome, if any. -/
def runCountdown : List (List (Bool × Bool)) → Nat × Option RoundOutcome
  | [] => (0, none)
  | h :: rest =>
    match scanHold h with
    | some o => (0, some o)
    | none =>
      let r := runCountdown rest
      (r.1 + 1, r.2)

/-- The reaction `while (!winnerDeclared)` loop (source lines 181-210):
Player 1's latch is checked before Player 2's on every poll (source
lines 196, 203); `none` means the loop is still spinning. -/
def scanReaction : List (Bool × Bool) → Option RoundOutcome
  | [] => none
  | (b1, b2) :: rest =>
    if b1 then some .player1Reacted
    else if b2 then some .player2Reacted
    else scanReaction rest

/-- Poll traces of one `playRound` invocation body: one poll list per
countdown hold, then the polls of the reaction loop. -/
structure RoundTrace where
  holds : List (List (Bool × Bool))
  reaction : List (Bool × Bool)

/-- One invocation body after the `roundCount` increment (source lines
129-210): the countdown, and the reaction loop only if no early press
occurred. Returns the number of LEDs switched off and the outcome. -/
def roundBody (t : RoundTrace) : Nat × Option RoundOutcome :=
  match runCountdown t.holds with
  | (k, some o) => (k, some o)
  | (k, none) => (k, scanReaction t.reaction)

/-- The start check of `loop()` (source lines 53-82): sample both channels
through `debounceButton` (the values are the sticky latches), fire the
start transition when the game is inactive and both sampled values are
`true`. Returns the fire decision and the state with updated channels. -/
def loopStartCheck (s : GameState) (r1 r2 : Bool × Bool) : Bool × GameState :=
  let p1 := debounceButton r1.1 r1.2 s.button1
  let p2 := debounceButton r2.1 r2.2 s.button2
  (!s.gameActive && p1.1 && p2.1, { s with button1 := p1.2, button2 := p2.2 })

/-! ### Unfolding and projection lemmas -/

theorem playRound_nil (s : GameState) :
    playRound [] s = if maxRounds ≤ s.roundCount then endGame s else s := rfl

theorem playRound_cons (o : RoundOutcome) (rest : List RoundOutcome) (s : GameState) :
    playRound (o :: rest) s =
      if maxRounds ≤ s.roundCount then endGame s else playRound rest (roundStep o s) := rfl

theorem entryCounts_nil (s : GameState) : entryCounts [] s = [] := by
  rw [entryCounts]; split <;> rfl

theorem entryCounts_cons (o : RoundOutcome) (rest : List RoundOutcome) (s : GameState) :
    entryCounts (o :: rest) s =
      if maxRounds ≤ s.roundCount then []
      else (s.roundCount + 1) :: entryCounts rest (roundStep o s) := rfl

theorem stateTrace_nil (s : GameState) : stateTrace [] s = [] := by
  rw [stateTrace]; split <;> rfl

theorem stateTrace_cons (o : RoundOutcome) (rest : List RoundOutcome) (s : GameState) :
    stateTrace (o :: rest) s =
      if maxRounds ≤ s.roundCount then []
      else roundStep o s :: stateTrace rest (roundStep o s) := rfl

theorem playRoundDepth_nil (s : GameState) : playRoundDepth [] s = 1 := by
  rw [playRoundDepth]; split <;> rfl

theorem playRoundDepth_cons (o : RoundOutcome) (rest : List RoundOutcome) (s : GameState) :
    playRoundDepth (o :: rest) s =
      if maxRounds ≤ s.roundCount then 1
      else 1 + playRoundDepth rest (roundStep o s) := rfl

@[simp] theorem scoreOutcome_roundCount (o : RoundOutcome) (s : GameState) :
    (scoreOutcome o s).roundCount = s.roundCount := by cases o <;> rfl

@[simp] theorem scoreOutcome_gameActive (o : RoundOutcome) (s : GameState) :
    (scoreOutcome o s).gameActive = s.gameActive := by cases o <;> rfl

theorem scoreOutcome_sum (o : RoundOutcome) (s : GameState) :
    (scoreOutcome o s).player1Score + (scoreOutcome o s).player2Score
      = s.player1Score + s.player2Score + 1 := by
  cases o <;> simp [scoreOutcome] <;> omega

@[simp] theorem clearLatches_player1Score (s : GameState) :
    (clearLatches s).player1Score = s.player1Score := rfl

@[simp] theorem clearLatches_player2Score (s : GameState) :
    (clearLatches s).player2Score = s.player2Score := rfl

@[simp] theorem clearLatches_roundCount (s : GameState) :
    (clearLatches s).roundCount = s.roundCount := rfl

@[simp] theorem clearLatches_gameActive (s : GameState) :
    (clearLatches s).gameActive = s.gameActive := rfl

@[simp] theorem roundStep_roundCount (o : RoundOutcome) (s : GameState) :
    (roundStep o s).roundCount = s.roundCount + 1 := by
  simp [roundStep]

@[simp] theorem roundStep_gameActive (o : RoundOutcome) (s : GameState) :
    (roundStep o s).gameActive = s.gameActive := by
  simp [roundStep]

theorem roundStep_sum (o : RoundOutcome) (s : GameState) :
    (roundStep o s).player1Score + (roundStep o s).player2Score
      = s.player1Score + s.player2Score + 1 := by
  simp [roundStep]
  have h := scoreOutcome_sum o { s with roundCount := s.roundCount + 1 }
  simpa using h

@[simp] theorem endGame_player1Score (s : GameState) :
    (endGame s).player1Score = s.player1Score := rfl

@[simp] theorem endGame_player2Score (s : GameState) :
    (endGame s).player2Score = s.player2Score := rfl

@[simp] theorem endGame_roundCount (s : GameState) :
    (endGame s).roundCount = s.roundCount := rfl

@[simp] theorem endGame_gameActive (s : GameState) :
    (endGame s).gameActive = false := rfl

/-- Completed match: once the trace is long enough, `playRound` counts up to
`maxRounds`, ends the game, and the two scores add up to the number of
rounds played. -/
theorem playRound_complete (os : List RoundOutcome) :
    ∀ s : GameState, s.roundCount ≤ maxRounds → maxRounds ≤ s.roundCount + os.length →
    (playRound os s).roundCount = maxRounds ∧ (playRound os s).gameActive = false ∧
    (playRound os s).player1Score + (playRound os s).player2Score
      = s.player1Score + s.player2Score + (maxRounds - s.roundCount) := by
  induction os with
  | nil =>
    intro s h1 h2
    simp only [List.length_nil, Nat.add_zero] at h2
    have hrc : s.roundCount = maxRounds := Nat.le_antisymm h1 h2
    rw [playRound_nil, if_pos h2]
    simp [hrc]
  | cons o rest ih =>
    intro s h1 h2
    rw [playRound_cons]
    by_cases hc : maxRounds ≤ s.roundCount
    · have hrc : s.roundCount = maxRounds := Nat.le_antisymm h1 hc
      rw [if_pos hc]
      simp [hrc]
    · rw [if_neg hc]
      have hlt : s.roundCount < maxRounds := Nat.lt_of_not_le hc
      have h1' : (roundStep o s).roundCount ≤ maxRounds := by
        rw [roundStep_roundCount]; omega
      have h2' : maxRounds ≤ (roundStep o s).roundCount + rest.length := by
        rw [roundStep_roundCount]
        simp only [List.length_cons] at h2
        omega
      obtain ⟨ha, hb, hsum⟩ := ih (roundStep o s) h1' h2'
      refine ⟨ha, hb, ?_⟩
      rw [hsum, roundStep_sum, roundStep_roundCount]
      omega

@[simp] theorem resetButtons_player1Score (s : GameState) :
    (resetButtons s).player1Score = s.player1Score := rfl

@[simp] theorem resetButtons_player2Score (s : GameState) :
    (resetButtons s).player2Score = s.player2Score := rfl

@[simp] theorem resetButtons_roundCount (s : GameState) :
    (resetButtons s).roundCount = s.roundCount := rfl

@[simp] theorem resetButtons_gameActive (s : GameState) :
    (resetButtons s).gameActive = s.gameActive := rfl

/-- Invariant propagation: if the scores of `s` add up to its round count,
the same holds at every state the match passes through. -/
theorem stateTrace_inv (os : List RoundOutcome) :
    ∀ s : GameState, s.player1Score + s.player2Score = s.roundCount →
      ∀ t ∈ stateTrace os s, t.player1Score + t.player2Score = t.roundCount := by
  induction os with
  | nil =>
    intro s _ t ht
    rw [stateTrace_nil] at ht
    simp at ht
  | cons o rest ih =>
    intro s h t ht
    rw [stateTrace_cons] at ht
    by_cases hc : maxRounds ≤ s.roundCount
    · rw [if_pos hc] at ht; simp at ht
    · rw [if_neg hc] at ht
      have hstep : (roundStep o s).player1Score + (roundStep o s).player2Score
          = (roundStep o s).roundCount := by
        rw [roundStep_sum, roundStep_roundCount, h]
      rcases List.mem_cons.mp ht with rfl | ht2
      · exact hstep
      · exact ih (roundStep o s) hstep t ht2

/-- Round numbers announced by a match are consecutive, starting after the
current count and cut off by the trace length and `maxRounds`. -/
theorem entryCounts_eq_range (os : List RoundOutcome) :
    ∀ s : GameState,
      entryCounts os s = List.range' (s.roundCount + 1) (min os.length (maxRounds - s.roundCount)) := by
  induction os with
  | nil => intro s; rw [entryCounts_nil]; simp
  | cons o rest ih =>
    intro s
    rw [entryCounts_cons]
    by_cases hc : maxRounds ≤ s.roundCount
    · rw [if_pos hc]
      have h0 : maxRounds - s.roundCount = 0 := Nat.sub_eq_zero_of_le hc
      simp [h0]
    · rw [if_neg hc, ih]
      have hlt : s.roundCount < maxRounds := Nat.lt_of_not_le hc
      rw [roundStep_roundCount]
      have hmin : min (o :: rest).length (maxRounds - s.roundCount)
          = min rest.length (maxRounds - (s.roundCount + 1)) + 1 := by
        simp only [List.length_cons]
        omega
      rw [hmin, List.range'_succ]

/-- A countdown hold only ever reports an early press. -/
theorem scanHold_early (l : List (Bool × Bool)) :
    ∀ o : RoundOutcome, scanHold l = some o →
      o = .player1EarlyPress ∨ o = .player2EarlyPress := by
  induction l with
  | nil => intro o h; simp [scanHold] at h
  | cons p rest ih =>
    intro o h
    obtain ⟨b1, b2⟩ := p
    cases b1 <;> cases b2 <;> simp [scanHold] at h
    · exact ih o h
    · exact Or.inr h.symm
    · exact Or.inl h.symm
    · exact Or.inl h.symm

/-- The countdown loop stops at the first hold whose scan fires: exactly the
preceding (cleanly completed) holds had their LED switched off. -/
theorem runCountdown_early (pre : List (List (Bool × Bool))) :
    ∀ (hold : List (Bool × Bool)) (rest : List (List (Bool × Bool))) (o : RoundOutcome),
      (∀ x ∈ pre, scanHold x = none) → scanHold hold = some o →
      runCountdown (pre ++ hold :: rest) = (pre.length, some o) := by
  induction pre with
  | nil =>
    intro hold rest o _ hh
    simp [runCountdown, hh]
  | cons a pre ih =>
    intro hold rest o hpre hh
    have ha : scanHold a = none := hpre a (by simp)
    have ihr := ih hold rest o (fun x hx => hpre x (by simp [hx])) hh
    simp only [List.cons_append, runCountdown, ha, List.length_cons]
    rw [show pre.append (hold :: rest) = pre ++ hold :: rest from rfl, ihr]

/-- The reaction loop only ever reports a reaction outcome. -/
theorem scanReaction_outcomes (l : List (Bool × Bool)) :
    ∀ o : RoundOutcome, scanReaction l = some o →
      o = .player1Reacted ∨ o = .player2Reacted := by
  induction l with
  | nil => intro o h; simp [scanReaction] at h
  | cons p rest ih =>
    intro o h
    obtain ⟨b1, b2⟩ := p
    cases b1 <;> cases b2 <;> simp [scanReaction] at h
    · exact ih o h
    · exact Or.inr h.symm
    · exact Or.inl h.symm
    · exact Or.inl h.symm

/-- The nesting depth of `playRound` invocations is bounded by the rounds
still to play plus the final terminating invocation. -/
theorem playRoundDepth_le (os : List RoundOutcome) :
    ∀ s : GameState, playRoundDepth os s ≤ maxRounds - s.roundCount + 1 := by
  induction os with
  | nil => intro s; rw [playRoundDepth_nil]; omega
  | cons o rest ih =>
    intro s
    rw [playRoundDepth_cons]
    by_cases hc : maxRounds ≤ s.roundCount
    · rw [if_pos hc]; omega
    · rw [if_neg hc]
      have h := ih (roundStep o s)
      rw [roundStep_roundCount] at h
      have hlt : s.roundCount < maxRounds := Nat.lt_of_not_le hc
      omega

/-- Tie characterization of the `endGame` result selection. -/
theorem finalResult_eq_tie_iff (s : GameState) :
    finalResult s = .tie ↔ s.player1Score = s.player2Score := by
  unfold finalResult
  split_ifs with h1 h2 <;> simp <;> omega

/-- The value `debounceButton` hands its caller is the channel's sticky
latch after the sample. -/
theorem debounceButton_fst (read1 read2 : Bool) (ch : ButtonChannel) :
    (debounceButton read1 read2 ch).1 = (debounceButton read1 read2 ch).2.pressedFlag := by
  obtain ⟨ls, pf⟩ := ch
  revert read1 read2 ls pf
  decide

/-- Stickiness: a set latch keeps the sampled value `true` whatever the pin
reads. -/
theorem debounceButton_sticky (read1 read2 : Bool) (ch : ButtonChannel) :
    ch.pressedFlag = true → (debounceButton read1 read2 ch).1 = true := by
  obtain ⟨ls, pf⟩ := ch
  revert read1 read2 ls pf
  decide

/-! ### Claim theorems -/

/-- C1: after every completed round of a match whose scores already balance
its round count (e.g. a fresh one), the total score equals the round count;
every outcome is one of the four `RoundOutcome` values and every outcome
awards exactly one point. -/
theorem C1_score_sum_invariant (os : List RoundOutcome) (s : GameState)
    (h : s.player1Score + s.player2Score = s.roundCount) :
    (∀ t ∈ stateTrace os s, t.player1Score + t.player2Score = t.roundCount) ∧
    (∀ (o : RoundOutcome) (u : GameState),
      (scoreOutcome o u).player1Score + (scoreOutcome o u).player2Score
        = u.player1Score + u.player2Score + 1) ∧
    (∀ (t : RoundTrace) (o : RoundOutcome), (roundBody t).2 = some o →
      o = .player1EarlyPress ∨ o = .player2EarlyPress ∨
        o = .player1Reacted ∨ o = .player2Reacted) :=
  ⟨stateTrace_inv os s h, fun o u => scoreOutcome_sum o u,
    fun _ o _ => by cases o <;> simp⟩

/-- C1 witness: after the first reacted round of a fresh match the scores
add up to the round count. -/
theorem C1_score_sum_invariant_witness :
    (roundStep .player1Reacted activeInit).player1Score
      + (roundStep .player1Reacted activeInit).player2Score
      = (roundStep .player1Reacted activeInit).roundCount :=
  (C1_score_sum_invariant [.player1Reacted] activeInit (by decide)).1
    (roundStep .player1Reacted activeInit) (by decide)

/-- C2: however long the outcome trace and whatever the outcomes, a match
started via `startNewGame` counts exactly `maxRounds = 5` rounds (announced
as rounds 1 through 5) and then enters `endGame`, which deactivates the
game. -/
theorem C2_exactly_five_rounds (os : List RoundOutcome) (s : GameState)
    (h : maxRounds ≤ os.length) :
    (startNewGame os { s with gameActive := true }).roundCount = maxRounds ∧
    (startNewGame os { s with gameActive := true }).gameActive = false ∧
    entryCounts os (resetButtons { s with player1Score := 0, player2Score := 0, roundCount := 0, gameActive := true }) = [1, 2, 3, 4, 5] := by
  unfold startNewGame
  have hc := playRound_complete os
    (resetButtons { s with player1Score := 0, player2Score := 0, roundCount := 0, gameActive := true })
    (by simp [maxRounds]) (by simp; omega)
  refine ⟨hc.1, hc.2.1, ?_⟩
  rw [entryCounts_eq_range]
  have hmin : min os.length (maxRounds - (resetButtons { s with player1Score := 0, player2Score := 0, roundCount := 0, gameActive := true }).roundCount) = 5 := by
    simp [maxRounds] at h ⊢
    omega
  rw [hmin]
  simp [maxRounds]
  rfl

/-- C2 witness: a five-outcome match counts rounds 1..5 and ends inactive. -/
theorem C2_exactly_five_rounds_witness :
    (startNewGame [.player1Reacted, .player2EarlyPress, .player1EarlyPress,
        .player2Reacted, .player1Reacted] { initState with gameActive := true }).roundCount
      = maxRounds ∧
    (startNewGame [.player1Reacted, .player2EarlyPress, .player1EarlyPress,
        .player2Reacted, .player1Reacted] { initState with gameActive := true }).gameActive
      = false :=
  ⟨(C2_exactly_five_rounds [.player1Reacted, .player2EarlyPress, .player1EarlyPress,
      .player2Reacted, .player1Reacted] initState (by decide)).1,
   (C2_exactly_five_rounds [.player1Reacted, .player2EarlyPress, .player1EarlyPress,
      .player2Reacted, .player1Reacted] initState (by decide)).2.1⟩

/-- C7: sampling with the raw reading equal to the stable state changes
nothing (idempotence on unchanged input); a set latch is never cleared by
the sampler; and the latch is newly set only by a committed LOW-to-HIGH
transition. -/
theorem C7_debounce_idempotent_monotone (read1 read2 : Bool) (ch : ButtonChannel) :
    (read1 = ch.lastState → debounceButton read1 read2 ch = (ch.pressedFlag, ch)) ∧
    (ch.pressedFlag = true → (debounceButton read1 read2 ch).2.pressedFlag = true) ∧
    ((debounceButton read1 read2 ch).2.pressedFlag = true →
      ch.pressedFlag = true ∨
        (ch.lastState = false ∧ read1 = true ∧ read2 = true ∧
          (debounceButton read1 read2 ch).2.lastState = true)) := by
  obtain ⟨ls, pf⟩ := ch
  revert read1 read2 ls pf
  decide

/-- C7 witness: with the latch set and the pin stably LOW, a sample returns
the set latch and leaves the channel untouched. -/
theorem C7_debounce_idempotent_monotone_witness :
    debounceButton false false ⟨false, true⟩ = (true, ⟨false, true⟩) :=
  (C7_debounce_idempotent_monotone false false ⟨false, true⟩).1 rfl

/-- C8: the final report is Player 1 wins iff `player1Score > player2Score`,
Player 2 wins iff the reverse, tie iff equal; the result is held for
`endHoldDelay = 10000` time units and `endGame` returns to Idle with both
latches cleared. -/
theorem C8_end_result (s : GameState) :
    (finalResult s = .player1Wins ↔ s.player1Score > s.player2Score) ∧
    (finalResult s = .player2Wins ↔ s.player2Score > s.player1Score) ∧
    (finalResult s = .tie ↔ s.player1Score = s.player2Score) ∧
    endHoldDelay = 10000 ∧
    (endGame s).gameActive = false ∧
    (endGame s).button1.pressedFlag = false ∧
    (endGame s).button2.pressedFlag = false := by
  refine ⟨?_, ?_, finalResult_eq_tie_iff s, rfl, rfl, rfl, rfl⟩ <;>
    unfold finalResult <;> split_ifs <;> simp <;> omega

/-- C8 witness: a 3-2 final score reports Player 1 as the winner. -/
theorem C8_end_result_witness :
    finalResult ⟨3, 2, 5, true, ⟨false, false⟩, ⟨false, false⟩⟩ = .player1Wins :=
  (C8_end_result ⟨3, 2, 5, true, ⟨false, false⟩, ⟨false, false⟩⟩).1.mpr (by decide)

/-- C10: an invocation at `roundCount >= maxRounds` goes straight to
`endGame`; any other invocation advances `roundCount` by exactly one before
re-entering; hence from a fresh match the nesting depth of `playRound`
invocations never exceeds `maxRounds + 1`. -/
theorem C10_invocation_depth_bounded (os : List RoundOutcome) (s : GameState) :
    (maxRounds ≤ s.roundCount → playRound os s = endGame s) ∧
    (∀ o : RoundOutcome, (roundStep o s).roundCount = s.roundCount + 1) ∧
    (s.roundCount = 0 → playRoundDepth os s ≤ maxRounds + 1) := by
  refine ⟨?_, fun o => roundStep_roundCount o s, ?_⟩
  · intro h
    cases os with
    | nil => rw [playRound_nil, if_pos h]
    | cons o rest => rw [playRound_cons, if_pos h]
  · intro h0
    have hle := playRoundDepth_le os s
    rw [h0] at hle
    simpa using hle

/-- C10 witness: a fresh all-early-press match stays within depth
`maxRounds + 1`. -/
theorem C10_invocation_depth_bounded_witness :
    playRoundDepth [.player1EarlyPress, .player1EarlyPress, .player1EarlyPress,
      .player1EarlyPress, .player1EarlyPress, .player1EarlyPress] activeInit
      ≤ maxRounds + 1 :=
  (C10_invocation_depth_bounded [.player1EarlyPress, .player1EarlyPress,
    .player1EarlyPress, .player1EarlyPress, .player1EarlyPress,
    .player1EarlyPress] activeInit).2.2 rfl

/-- C3 counterexample: while Idle, with Player 1's latch still set from an
earlier press although the pin reads stably LOW again, and Player 2's
channel pressed, the start transition fires even though channel 1's
debounced stable state reads not-pressed both before and after the sample.
The check consumes the sticky latch, not a live read. -/
theorem C3_start_transition_counterexample :
    (loopStartCheck ⟨0, 0, 0, false, ⟨false, true⟩, ⟨true, true⟩⟩ (false, false) (true, true)).1 = true ∧
    (⟨0, 0, 0, false, ⟨false, true⟩, ⟨true, true⟩⟩ : GameState).button1.lastState = false ∧
    (loopStartCheck ⟨0, 0, 0, false, ⟨false, true⟩, ⟨true, true⟩⟩ (false, false) (true, true)).2.button1.lastState = false := by
  decide

/-- C3 amended: while the game is inactive the transition to Active fires
exactly when both channels' `debounceButton` values — the sticky
latched-press flags — read `true`; a set latch stays `true` whatever the
pins currently read, so the start check is not a direct live read of the
stable states. -/
theorem C3_start_fires_on_latches (s : GameState) (r1 r2 : Bool × Bool) :
    ((loopStartCheck s r1 r2).1 = true ↔
      s.gameActive = false ∧ (debounceButton r1.1 r1.2 s.button1).1 = true ∧
        (debounceButton r2.1 r2.2 s.button2).1 = true) ∧
    (s.button1.pressedFlag = true → (debounceButton r1.1 r1.2 s.button1).1 = true) ∧
    (s.button2.pressedFlag = true → (debounceButton r2.1 r2.2 s.button2).1 = true) := by
  refine ⟨?_, debounceButton_sticky r1.1 r1.2 s.button1,
    debounceButton_sticky r2.1 r2.2 s.button2⟩
  unfold loopStartCheck
  simp [Bool.and_eq_true, Bool.not_eq_true', and_assoc]

/-- C3 amended witness: from the powered-up state, a committed simultaneous
press of both buttons fires the start transition. -/
theorem C3_start_fires_on_latches_witness :
    (loopStartCheck initState (true, true) (true, true)).1 = true :=
  (C3_start_fires_on_latches initState (true, true) (true, true)).1.mpr (by decide)

/-- C4: an early press during any countdown hold ends the invocation with
that player's EarlyPress outcome: only the holds before it had their LED
switched off, the reaction polls are never consulted, the opponent alone
gains one point, and both latches are cleared. -/
theorem C4_early_press_aborts_countdown (pre : List (List (Bool × Bool)))
    (hold : List (Bool × Bool)) (rest : List (List (Bool × Bool)))
    (reaction1 reaction2 : List (Bool × Bool)) (o : RoundOutcome) (s : GameState)
    (hpre : ∀ x ∈ pre, scanHold x = none) (hh : scanHold hold = some o) :
    roundBody ⟨pre ++ hold :: rest, reaction1⟩ = (pre.length, some o) ∧
    (o = .player1EarlyPress ∨ o = .player2EarlyPress) ∧
    roundBody ⟨pre ++ hold :: rest, reaction1⟩ = roundBody ⟨pre ++ hold :: rest, reaction2⟩ ∧
    (clearLatches (scoreOutcome o s)).button1.pressedFlag = false ∧
    (clearLatches (scoreOutcome o s)).button2.pressedFlag = false ∧
    (o = .player1EarlyPress →
      (scoreOutcome o s).player2Score = s.player2Score + 1 ∧
      (scoreOutcome o s).player1Score = s.player1Score) ∧
    (o = .player2EarlyPress →
      (scoreOutcome o s).player1Score = s.player1Score + 1 ∧
      (scoreOutcome o s).player2Score = s.player2Score) := by
  have hrc := runCountdown_early pre hold rest o hpre hh
  refine ⟨by simp [roundBody, hrc], scanHold_early hold o hh,
    by simp [roundBody, hrc], rfl, rfl, ?_, ?_⟩
  · rintro rfl; exact ⟨rfl, rfl⟩
  · rintro rfl; exact ⟨rfl, rfl⟩

/-- C4 witness: with the first hold clean and Player 2's latch firing in the
second hold, the round ends as Player2EarlyPress after exactly one LED was
switched off, ignoring the reaction polls. -/
theorem C4_early_press_aborts_countdown_witness :
    roundBody ⟨[[(false, false)], [(false, false), (false, true)]], [(true, false)]⟩
      = (1, some .player2EarlyPress) :=
  (C4_early_press_aborts_countdown [[(false, false)]] [(false, false), (false, true)]
    [] [(true, false)] [] .player2EarlyPress activeInit (by decide) (by decide)).1

/-- C5 counterexample: in a fresh match whose first invocation (round 1)
ends with Player 1 pressing early, the recursive re-entry announces round
2 — `roundCount` does advance beyond the invocation already counted. -/
theorem C5_replay_counterexample :
    entryCounts [.player1EarlyPress, .player1Reacted] activeInit = [1, 2] ∧ (2 : Nat) ≠ 1 := by
  decide

/-- C5 amended: the early-press handler itself neither decrements nor
increments `roundCount` — the value set at the invocation's entry stands —
but the recursive re-entry it triggers is an ordinary `playRound`
invocation, which counts and announces the next round: the early-pressed
round is consumed, not replayed under its old number. -/
theorem C5_early_press_reentry (s : GameState) (o : RoundOutcome) (os : List RoundOutcome)
    (_ho : o = .player1EarlyPress ∨ o = .player2EarlyPress)
    (hrc : s.roundCount < maxRounds) :
    (clearLatches (scoreOutcome o { s with roundCount := s.roundCount + 1 })).roundCount
      = s.roundCount + 1 ∧
    playRound (o :: os) s = playRound os (roundStep o s) ∧
    entryCounts (o :: os) s = (s.roundCount + 1) :: entryCounts os (roundStep o s) := by
  have hnot : ¬ maxRounds ≤ s.roundCount := Nat.not_le_of_lt hrc
  refine ⟨by simp, ?_, ?_⟩
  · rw [playRound_cons, if_neg hnot]
  · rw [entryCounts_cons, if_neg hnot]

/-- C5 amended witness: an early press by Player 2 in round 1 hands the
recursion a state whose round count is exactly the one counted at entry. -/
theorem C5_early_press_reentry_witness :
    playRound [.player2EarlyPress] activeInit
      = playRound [] (roundStep .player2EarlyPress activeInit) :=
  (C5_early_press_reentry activeInit .player2EarlyPress [] (Or.inr rfl) (by decide)).2.1

/-- Reaction polls that read no latch are skipped without effect. -/
theorem scanReaction_skips_quiet_polls (pre : List (Bool × Bool)) :
    ∀ (b2 : Bool) (rest : List (Bool × Bool)), (∀ x ∈ pre, x = (false, false)) →
      scanReaction (pre ++ (true, b2) :: rest) = some .player1Reacted := by
  induction pre with
  | nil => intro b2 rest _; simp [scanReaction]
  | cons p pre ih =>
    intro b2 rest hpre
    have hp : p = (false, false) := hpre p (by simp)
    subst hp
    simp only [List.cons_append, scanReaction, if_false, Bool.false_eq_true]
    exact ih b2 rest (fun x hx => hpre x (by simp [hx]))

/-- C6: Player 1's latch is checked first on every reaction poll, so on the
first poll where any latch is set — both at once included — Player 1 wins
the round; the reaction loop only ever produces one player's Reacted
outcome, so a tied round is impossible. -/
theorem C6_simultaneous_press_favors_player1 (pre : List (Bool × Bool)) (b2 : Bool)
    (rest : List (Bool × Bool)) (hpre : ∀ x ∈ pre, x = (false, false)) :
    scanReaction (pre ++ (true, b2) :: rest) = some .player1Reacted ∧
    (∀ (polls : List (Bool × Bool)) (o : RoundOutcome), scanReaction polls = some o →
      o = .player1Reacted ∨ o = .player2Reacted) :=
  ⟨scanReaction_skips_quiet_polls pre b2 rest hpre,
    fun polls o h => scanReaction_outcomes polls o h⟩

/-- C6 witness: a quiet poll followed by a simultaneous press gives the
round to Player 1. -/
theorem C6_simultaneous_press_favors_player1_witness :
    scanReaction [(false, false), (true, true)] = some .player1Reacted :=
  (C6_simultaneous_press_favors_player1 [(false, false)] true [] (by decide)).1

/-- C9: with `maxRounds = 5`, every match driven into the End phase finishes
with distinct scores — the odd round total forces a non-tie — so the tie
branch of the final report is unreachable under the compiled-in constants. -/
theorem C9_odd_total_no_tie (os : List RoundOutcome) (s : GameState)
    (h : maxRounds ≤ os.length) :
    (startNewGame os s).player1Score ≠ (startNewGame os s).player2Score ∧
    finalResult (startNewGame os s) ≠ .tie := by
  unfold startNewGame
  have hc := playRound_complete os
    (resetButtons { s with player1Score := 0, player2Score := 0, roundCount := 0 })
    (by simp [maxRounds]) (by simp; omega)
  obtain ⟨-, -, hsum⟩ := hc
  simp [maxRounds] at hsum
  have hne : (playRound os (resetButtons { s with player1Score := 0, player2Score := 0, roundCount := 0 })).player1Score
      ≠ (playRound os (resetButtons { s with player1Score := 0, player2Score := 0, roundCount := 0 })).player2Score := by
    omega
  exact ⟨hne, fun ht => hne ((finalResult_eq_tie_iff _).mp ht)⟩

/-- C9 witness: a clean 5-0 match does not report a tie. -/
theorem C9_odd_total_no_tie_witness :
    finalResult (startNewGame [.player1Reacted, .player1Reacted, .player1Reacted,
      .player1Reacted, .player1Reacted] initState) ≠ .tie :=
  (C9_odd_total_no_tie [.player1Reacted, .player1Reacted, .player1Reacted,
    .player1Reacted, .player1Reacted] initState (by decide)).2

end ReactionGame
